import Mathlib

/-!
Verification of the UTS record-query service: parameter validation, filter
construction, pagination and count reporting, time-bucketed statistics,
the admin auth gate, startup configuration, the HTTP error surface of
`src/index.ts`, and the admin-dashboard fee calculator.

The repository snapshot contains `src/index.ts` (server wiring, 404 and
error middleware), the `AdminDashboard` React component, and the README.
The route handlers (`routes/mainpage.ts`, `routes/user.ts`,
`routes/admin.ts`) are referenced by `src/index.ts` but their files are
not in the snapshot; definitions for them below are modelled from the
spec and are marked as such in their doc comments.
-/

namespace UTS

/-- Sort order enum: the two accepted values of the `sortOrder` query
parameter; descending is the default. -/
inductive SortOrder
  | asc
  | desc
deriving DecidableEq, Repr

/-- Validation error kinds of the Query Parameter Validator (spec section 4.1). -/
inductive ValidationError
  | InvalidTxid
  | InvalidLimit
  | InvalidSkip
  | InvalidDate
  | InvalidDateRange
  | InvalidSortOrder
deriving DecidableEq, Repr

/-- Modelled from the spec: a raw date parameter, abstracting ISO-8601
string parsing (done by the missing `routes/user.ts`). A present date
field either parses to a timestamp (milliseconds, as an integer) or is
malformed. -/
inductive DateInput
  | valid (t : Int)
  | malformed
deriving DecidableEq, Repr

/-- Raw, untrusted query input: each field is an optional request
parameter. `limit` and `skip` carry the raw strings; the date fields
carry the abstracted parse outcome. -/
structure RawQuery where
  txid : Option String
  limit : Option String
  skip : Option String
  startDate : Option DateInput
  endDate : Option DateInput
  sortOrder : Option String
deriving Repr

/-- Hexadecimal character test used by the txid pattern. -/
def isHexChar (c : Char) : Bool :=
  c.isDigit || ('a' ≤ c && c ≤ 'f') || ('A' ≤ c && c ≤ 'F')

/-- Hex-string pattern of the fixed expected length (64) for a txid. -/
def isHex64 (s : String) : Bool :=
  s.length == 64 && s.toList.all isHexChar

/-- Clamping of the parsed `limit` into `[1,100]` (spec section 4.1:
clamped, not rejected). -/
def clampLimit (n : Nat) : Nat :=
  if n > 100 then 100 else if n < 1 then 1 else n

/-- Validated, immutable query specification (spec section 3). -/
structure QuerySpec where
  txid : Option String
  limit : Nat
  skip : Nat
  startDate : Option Int
  endDate : Option Int
  sortOrder : SortOrder
deriving DecidableEq, Repr

/-- Modelled from the spec: txid validation rule of the missing
`routes/user.ts` — if present and non-empty, the value must satisfy the
64-hex pattern, otherwise `InvalidTxid`. -/
def validateTxid : Option String → Except ValidationError (Option String)
  | none => .ok none
  | some s =>
    if s.isEmpty then .ok none
    else if isHex64 s then .ok (some s)
    else .error .InvalidTxid

/-- Modelled from the spec: parsing of a non-negative integer request
parameter by the missing `routes/user.ts` — all-digit non-empty input
parses to its decimal value; anything else (empty, signs, other
characters) is non-numeric. -/
def parseNonNegInt (s : String) : Option Nat :=
  if s.toList ≠ [] ∧ s.toList.all (fun c => c.isDigit) then
    some (s.toList.foldl (fun n c => n * 10 + (c.toNat - 48)) 0)
  else none

/-- Modelled from the spec: limit validation rule of the missing
`routes/user.ts` — absent means default 50; a present value must parse
as a non-negative integer (else `InvalidLimit`) and is clamped into
`[1,100]`. -/
def validateLimit : Option String → Except ValidationError Nat
  | none => .ok 50
  | some s =>
    match parseNonNegInt s with
    | some n => .ok (clampLimit n)
    | none => .error .InvalidLimit

/-- Modelled from the spec: skip validation rule of the missing
`routes/user.ts` — absent means default 0; a present value must parse as
a non-negative integer, else `InvalidSkip`; no upper bound. -/
def validateSkip : Option String → Except ValidationError Nat
  | none => .ok 0
  | some s =>
    match parseNonNegInt s with
    | some n => .ok n
    | none => .error .InvalidSkip

/-- Modelled from the spec: date validation of the missing
`routes/user.ts` — a present but unparseable date is `InvalidDate`. -/
def validateDate : Option DateInput → Except ValidationError (Option Int)
  | none => .ok none
  | some (.valid t) => .ok (some t)
  | some .malformed => .error .InvalidDate

/-- Modelled from the spec: sortOrder validation of the missing
`routes/user.ts` — must be exactly "asc" or "desc" when present,
default descending. -/
def validateSortOrder : Option String → Except ValidationError SortOrder
  | none => .ok .desc
  | some s =>
    if s = "asc" then .ok .asc
    else if s = "desc" then .ok .desc
    else .error .InvalidSortOrder

/-- Modelled from the spec: the date-range rule of the missing
`routes/user.ts` — when both bounds are present, `startDate ≤ endDate`
must hold, else `InvalidDateRange`. -/
def checkDateRange : Option Int → Option Int → Except ValidationError Unit
  | some a, some b => if a > b then .error .InvalidDateRange else .ok ()
  | _, _ => .ok ()

/-- Modelled from the spec: the Query Parameter Validator of the missing
`routes/user.ts` (spec section 4.1). Fields are checked in the order the
spec lists them (txid, limit, skip, dates, date range, sortOrder); the
first failing check's error kind is returned. -/
def validateQuery (raw : RawQuery) : Except ValidationError QuerySpec :=
  match validateTxid raw.txid with
  | .error e => .error e
  | .ok txid =>
  match validateLimit raw.limit with
  | .error e => .error e
  | .ok limit =>
  match validateSkip raw.skip with
  | .error e => .error e
  | .ok skip =>
  match validateDate raw.startDate with
  | .error e => .error e
  | .ok sd =>
  match validateDate raw.endDate with
  | .error e => .error e
  | .ok ed =>
  match checkDateRange sd ed with
  | .error e => .error e
  | .ok _ =>
  match validateSortOrder raw.sortOrder with
  | .error e => .error e
  | .ok so => .ok ⟨txid, limit, skip, sd, ed, so⟩

/-- An overlay record (spec section 3): txid, outputIndex, createdAt
timestamp in milliseconds. -/
structure Record where
  txid : String
  outputIndex : Nat
  createdAt : Int
deriving DecidableEq, Repr

/-- A store-native filter: optional exact-match on txid and an optional
inclusive range on createdAt. All-`none` is the empty filter. -/
structure StoreFilter where
  txid : Option String
  createdAtGe : Option Int
  createdAtLe : Option Int
deriving DecidableEq, Repr

/-- Modelled from the spec: the Filter Builder of the missing
`routes/user.ts` (spec section 4.2) — txid becomes an exact-match
predicate, the dates become an inclusive range on createdAt, absent
fields contribute no predicate. -/
def buildFilter (q : QuerySpec) : StoreFilter :=
  ⟨q.txid, q.startDate, q.endDate⟩

/-- Evaluation of a store filter on one record: the conjunction (AND) of
whichever predicates are present. -/
def matchesFilter (f : StoreFilter) (r : Record) : Bool :=
  (match f.txid with
   | none => true
   | some t => r.txid == t) &&
  (match f.createdAtGe with
   | none => true
   | some a => decide (a ≤ r.createdAt)) &&
  (match f.createdAtLe with
   | none => true
   | some b => decide (r.createdAt ≤ b))

/-- Ordering test used by the sort engine: records are ordered by
createdAt, ascending or descending as requested. -/
def sortLe (so : SortOrder) (a b : Record) : Bool :=
  match so with
  | .asc => decide (a.createdAt ≤ b.createdAt)
  | .desc => decide (b.createdAt ≤ a.createdAt)

/-- Insertion of a record into a sorted list, keeping it sorted under `le`. -/
def insertSorted (le : Record → Record → Bool) (r : Record) :
    List Record → List Record
  | [] => [r]
  | x :: xs => if le r x then r :: x :: xs else x :: insertSorted le r xs

/-- Insertion sort of a record list under `le`; models the store's
sort-by-createdAt. -/
def sortRecords (le : Record → Record → Bool) : List Record → List Record
  | [] => []
  | x :: xs => insertSorted le x (sortRecords le xs)

/-- Result of a record query: the page of records and the total count of
records matching the filter before pagination. -/
structure QueryResult where
  records : List Record
  count : Nat
deriving DecidableEq, Repr

/-- Modelled from the spec: the query execution of the missing
`routes/user.ts` (spec section 4.3) — filter the store, count the
matches before pagination (the separate unpaginated count), sort by
createdAt in the requested order, then apply skip and limit. -/
def runQuery (store : List Record) (q : QuerySpec) : QueryResult :=
  let filtered := store.filter (matchesFilter (buildFilter q))
  let sorted := sortRecords (sortLe q.sortOrder) filtered
  ⟨(sorted.drop q.skip).take q.limit, filtered.length⟩

/-- Count of records whose createdAt falls within the trailing window
ending at `now`: an inclusive-threshold count `createdAt ≥ now - window`. -/
def countInWindow (records : List Record) (now window : Int) : Nat :=
  (records.filter fun r => decide (now - window ≤ r.createdAt)).length

/-- Modelled from the spec: the Time-Bucketed Statistics Aggregator of
the missing `routes/mainpage.ts` and `routes/admin.ts` (spec section
4.4) — parameterized by the window set, each window computed
independently from the same captured `now`. -/
def aggregateWindows (records : List Record) (now : Int)
    (windows : List Int) : List Nat :=
  windows.map (countInWindow records now)

/-- One hour in milliseconds. -/
def msPerHour : Int := 60 * 60 * 1000

/-- Twenty-four hours in milliseconds. -/
def msPerDay : Int := 24 * msPerHour

/-- Seven days in milliseconds. -/
def msPer7d : Int := 7 * msPerDay

/-- Thirty days in milliseconds. -/
def msPer30d : Int := 30 * msPerDay

/-- Admin recentActivity window set {1h, 24h, 7d, 30d}. -/
def adminWindows : List Int := [msPerHour, msPerDay, msPer7d, msPer30d]

/-- Dashboard statistics window set {24h, 7d, 30d}. -/
def dashboardWindows : List Int := [msPerDay, msPer7d, msPer30d]

/-- Outcome of the auth gate on one request. -/
inductive AuthResult
  | authorized
  | unauthorized
deriving DecidableEq, Repr

/-- Characters of the literal header scheme prefix "Bearer " (7 characters). -/
def bearerTag : List Char := ['B', 'e', 'a', 'r', 'e', 'r', ' ']

/-- Extraction of the token from an `Authorization` header value of the
form `Bearer <token>`; any other shape yields none. -/
def extractBearerToken (h : String) : Option String :=
  if h.toList.take 7 = bearerTag then some ⟨h.toList.drop 7⟩ else none

/-- Modelled from the spec: the Auth Gate of the missing
`routes/admin.ts` (spec section 4.5) — extract the bearer token from the
`Authorization` header and compare it against the configured secret;
missing header, malformed scheme, and mismatched token all give the one
`unauthorized` outcome. -/
def checkAuth (secret : String) (header : Option String) : AuthResult :=
  match header with
  | none => .unauthorized
  | some h =>
    match extractBearerToken h with
    | none => .unauthorized
    | some tok => if tok = secret then .authorized else .unauthorized

/-- Process-wide configuration surface read at startup: the environment
variables consumed by `src/index.ts` and the admin router. -/
structure Config where
  mongoUrl : Option String
  mongoDbName : Option String
  adminToken : Option String
deriving DecidableEq, Repr

/-- A connected database handle, carrying the database name selected in
`connectToDatabase`. -/
structure Db where
  name : String
deriving DecidableEq, Repr

/-- Embedding of `connectToDatabase` (src/index.ts lines 28-47): throws
when MONGO_URL is unset, otherwise connects and selects
MONGO_DB_NAME or the default database name. -/
def connectToDatabase (cfg : Config) : Except String Db :=
  match cfg.mongoUrl with
  | none => .error "MONGO_URL environment variable is not set"
  | some _ => .ok ⟨cfg.mongoDbName.getD "fractionalizeDB"⟩

/-- The admin router value, carrying the configured secret it guards with. -/
structure AdminRouter where
  secret : String
deriving DecidableEq, Repr

/-- Modelled from the spec: `createAdminRouter` of the missing
`routes/admin.ts` — absence of a configured admin secret is a fatal
configuration error at startup, not a per-request bypass (spec sections
4.5 and 6). -/
def createAdminRouter (cfg : Config) : Except String AdminRouter :=
  match cfg.adminToken with
  | none => .error "ADMIN_TOKEN environment variable is not set"
  | some s => .ok ⟨s⟩

/-- Startup outcome of `startServer` (src/index.ts lines 50-104): either
the server is serving with a connected database and mounted admin
router, or the catch block ran `process.exit(1)` before any request was
served. -/
inductive StartupResult
  | serving (db : Db) (admin : AdminRouter)
  | exited
deriving DecidableEq, Repr

/-- Embedding of `startServer` (src/index.ts lines 50-104): connect to
the database, mount the routers (the admin router construction reads the
configured secret), then listen; any failure is caught and the process
exits before serving. -/
def startServer (cfg : Config) : StartupResult :=
  match connectToDatabase cfg with
  | .error _ => .exited
  | .ok db =>
    match createAdminRouter cfg with
    | .error _ => .exited
    | .ok ar => .serving db ar

/-- The uniform error body shape `\x7bstatus, message, code\x7d` every
error response carries (src/index.ts lines 76-92 and spec section 7). -/
structure ErrorBody where
  status : String
  message : String
  code : String
deriving DecidableEq, Repr

/-- A response from the service: a success (payload abstracted) or an
HTTP status paired with a uniform error body. -/
inductive ApiResponse
  | success
  | err (httpStatus : Nat) (body : ErrorBody)
deriving DecidableEq, Repr

/-- Construction of an error response in the uniform shape: the status
field is always the literal "error". -/
def errorResponse (httpStatus : Nat) (message code : String) : ApiResponse :=
  .err httpStatus ⟨"error", message, code⟩

/-- Stable machine-readable code for each validation error kind (README
error-code table; spec section 7 taxonomy). -/
def codeFor : ValidationError → String
  | .InvalidTxid => "INVALID_PARAMETERS"
  | .InvalidLimit => "INVALID_PARAMETERS"
  | .InvalidSkip => "INVALID_PARAMETERS"
  | .InvalidDate => "INVALID_DATE"
  | .InvalidDateRange => "INVALID_DATE_RANGE"
  | .InvalidSortOrder => "INVALID_SORT_ORDER"

/-- Human-readable message for each validation error kind. -/
def messageFor : ValidationError → String
  | .InvalidTxid => "Invalid txid parameter"
  | .InvalidLimit => "Invalid limit parameter"
  | .InvalidSkip => "Invalid skip parameter"
  | .InvalidDate => "Invalid date format"
  | .InvalidDateRange => "Invalid date range"
  | .InvalidSortOrder => "Invalid sort order value"

/-- An inbound request, after routing: the operations `src/index.ts`
mounts, plus `unknown` for any path none of the routers match (which
falls through to the 404 middleware). -/
inductive Route
  | root
  | mainpage
  | user (raw : RawQuery)
  | adminStats (authHeader : Option String)
  | adminHealth (authHeader : Option String)
  | unknown (path : String)

/-- Request-handling environment: the configured secret, the record
store contents, and whether the store is reachable on this request. -/
structure ServerEnv where
  secret : String
  store : List Record
  storeUp : Bool

/-- Modelled from the spec: the user query handler of the missing
`routes/user.ts` — a validation failure is returned immediately as a 400
with its taxonomy code; a store failure is converted to 503
DATABASE_UNAVAILABLE; otherwise success. -/
def handleUser (env : ServerEnv) (raw : RawQuery) : ApiResponse :=
  match validateQuery raw with
  | .error k => errorResponse 400 (messageFor k) (codeFor k)
  | .ok _ =>
    if env.storeUp then .success
    else errorResponse 503 "Database connection failed" "DATABASE_UNAVAILABLE"

/-- Modelled from the spec: an admin handler of the missing
`routes/admin.ts` — the auth gate guards the operation; a store failure
is converted to 503; otherwise success. -/
def handleAdmin (env : ServerEnv) (authHeader : Option String) : ApiResponse :=
  match checkAuth env.secret authHeader with
  | .unauthorized => errorResponse 401 "Unauthorized" "UNAUTHORIZED"
  | .authorized =>
    if env.storeUp then .success
    else errorResponse 503 "Database connection failed" "DATABASE_UNAVAILABLE"

/-- Modelled from the spec: the dashboard handler of the missing
`routes/mainpage.ts` — public (no auth gate); a store failure is a 503. -/
def handleMainpage (env : ServerEnv) : ApiResponse :=
  if env.storeUp then .success
  else errorResponse 503 "Database connection failed" "DATABASE_UNAVAILABLE"

/-- Embedding of the request dispatch of `src/index.ts`: the root
endpoint, the three mounted routers, and the trailing 404 middleware
(lines 76-82) answering every unrecognized path with the uniform
NOT_FOUND error body. -/
def handleRequest (env : ServerEnv) (req : Route) : ApiResponse :=
  match req with
  | .root => .success
  | .mainpage => handleMainpage env
  | .user raw => handleUser env raw
  | .adminStats h => handleAdmin env h
  | .adminHealth h => handleAdmin env h
  | .unknown _ => errorResponse 404 "Endpoint not found" "NOT_FOUND"

/-- Embedding of the error-handler middleware of `src/index.ts` (lines
85-92): any unhandled thrown error becomes the fixed 500 body, with no
detail of the thrown error crossing the boundary. -/
def errorMiddleware : ApiResponse :=
  errorResponse 500 "Internal server error" "INTERNAL_SERVER_ERROR"

/-- The fixed set of (message, code) pairs an error response can carry:
constant strings only, no stack traces or internal details. -/
def allowedErrors : List (String × String) :=
  [("Invalid txid parameter", "INVALID_PARAMETERS"),
   ("Invalid limit parameter", "INVALID_PARAMETERS"),
   ("Invalid skip parameter", "INVALID_PARAMETERS"),
   ("Invalid date format", "INVALID_DATE"),
   ("Invalid date range", "INVALID_DATE_RANGE"),
   ("Invalid sort order value", "INVALID_SORT_ORDER"),
   ("Unauthorized", "UNAUTHORIZED"),
   ("Database connection failed", "DATABASE_UNAVAILABLE"),
   ("Endpoint not found", "NOT_FOUND"),
   ("Internal server error", "INTERNAL_SERVER_ERROR")]

/-- Embedding of the `totalSats` computation of the AdminDashboard fee
calculator (`rate === 0 ? shares : shares * rate` with
`parseFloat(x) || 0` on both inputs). A field's parse outcome is an
optional rational: `none` models non-numeric input (parseFloat NaN),
which `|| 0` turns into 0, as it does a parsed 0. -/
def totalSats (numShares peggingRate : Option ℚ) : ℚ :=
  let shares := numShares.getD 0
  let rate := peggingRate.getD 0
  if rate = 0 then shares else shares * rate

/-! Helper lemmas about the validator. -/

theorem validateTxid_error_kind {x : Option String} {e : ValidationError}
    (h : validateTxid x = .error e) : e = .InvalidTxid := by
  cases x with
  | none => simp [validateTxid] at h
  | some s =>
    by_cases h1 : s.isEmpty <;> by_cases h2 : isHex64 s <;>
      simp [validateTxid, h1, h2] at h <;> simp [h]

theorem validateLimit_error_src {x : Option String} {e : ValidationError}
    (h : validateLimit x = .error e) :
    e = .InvalidLimit ∧ ∃ s, x = some s ∧ parseNonNegInt s = none := by
  cases x with
  | none => simp [validateLimit] at h
  | some s =>
    cases hn : parseNonNegInt s with
    | some n => simp [validateLimit, hn] at h
    | none =>
      simp [validateLimit, hn] at h
      exact ⟨h.symm, s, rfl, hn⟩

theorem validateSkip_error_kind {x : Option String} {e : ValidationError}
    (h : validateSkip x = .error e) : e = .InvalidSkip := by
  cases x with
  | none => simp [validateSkip] at h
  | some s =>
    cases hn : parseNonNegInt s with
    | some n => simp [validateSkip, hn] at h
    | none => simp [validateSkip, hn] at h; simp [h]

theorem validateDate_error_kind {x : Option DateInput} {e : ValidationError}
    (h : validateDate x = .error e) : e = .InvalidDate := by
  match x with
  | none => simp [validateDate] at h
  | some (.valid t) => simp [validateDate] at h
  | some .malformed => simp [validateDate] at h; simp [h]

theorem checkDateRange_error_kind {a b : Option Int} {e : ValidationError}
    (h : checkDateRange a b = .error e) : e = .InvalidDateRange := by
  match a, b with
  | some x, some y =>
    by_cases hxy : x > y <;> simp [checkDateRange, hxy] at h
    simp [h]
  | none, _ => simp [checkDateRange] at h
  | some _, none => simp [checkDateRange] at h

theorem validateSortOrder_error_kind {x : Option String} {e : ValidationError}
    (h : validateSortOrder x = .error e) : e = .InvalidSortOrder := by
  cases x with
  | none => simp [validateSortOrder] at h
  | some s =>
    by_cases h1 : s = "asc" <;> by_cases h2 : s = "desc" <;>
      simp [validateSortOrder, h1, h2] at h <;> simp [h]

/-- Decomposition of a successful validation: every field of the produced
QuerySpec is the output of its field validator. -/
theorem validateQuery_ok_parts {raw : RawQuery} {q : QuerySpec}
    (h : validateQuery raw = .ok q) :
    validateTxid raw.txid = .ok q.txid ∧
    validateLimit raw.limit = .ok q.limit ∧
    validateSkip raw.skip = .ok q.skip ∧
    validateDate raw.startDate = .ok q.startDate ∧
    validateDate raw.endDate = .ok q.endDate ∧
    checkDateRange q.startDate q.endDate = .ok () ∧
    validateSortOrder raw.sortOrder = .ok q.sortOrder := by
  obtain ⟨qt, ql, qk, qsd, qed, qso⟩ := q
  unfold validateQuery at h
  cases hT : validateTxid raw.txid with
  | error e => rw [hT] at h; simp at h
  | ok t =>
  rw [hT] at h; dsimp only at h
  cases hL : validateLimit raw.limit with
  | error e => rw [hL] at h; simp at h
  | ok l =>
  rw [hL] at h; dsimp only at h
  cases hS : validateSkip raw.skip with
  | error e => rw [hS] at h; simp at h
  | ok k =>
  rw [hS] at h; dsimp only at h
  cases hD1 : validateDate raw.startDate with
  | error e => rw [hD1] at h; simp at h
  | ok sd =>
  rw [hD1] at h; dsimp only at h
  cases hD2 : validateDate raw.endDate with
  | error e => rw [hD2] at h; simp at h
  | ok ed =>
  rw [hD2] at h; dsimp only at h
  cases hR : checkDateRange sd ed with
  | error e => rw [hR] at h; simp at h
  | ok u =>
  rw [hR] at h; dsimp only at h
  cases hO : validateSortOrder raw.sortOrder with
  | error e => rw [hO] at h; simp at h
  | ok so =>
  rw [hO] at h; dsimp only at h
  simp at h
  refine ⟨?_, ?_, ?_, ?_, ?_, ?_, ?_⟩ <;> simp_all

/-- An InvalidLimit outcome can only come from a present, non-numeric
limit parameter. -/
theorem invalidLimit_source {raw : RawQuery}
    (h : validateQuery raw = .error .InvalidLimit) :
    ∃ s, raw.limit = some s ∧ parseNonNegInt s = none := by
  unfold validateQuery at h
  cases hT : validateTxid raw.txid with
  | error e =>
    rw [hT] at h
    have := validateTxid_error_kind hT
    simp [this] at h
  | ok t =>
  rw [hT] at h; dsimp only at h
  cases hL : validateLimit raw.limit with
  | error e => exact (validateLimit_error_src hL).2
  | ok l =>
  rw [hL] at h; dsimp only at h
  cases hS : validateSkip raw.skip with
  | error e =>
    rw [hS] at h
    have := validateSkip_error_kind hS
    simp [this] at h
  | ok k =>
  rw [hS] at h; dsimp only at h
  cases hD1 : validateDate raw.startDate with
  | error e =>
    rw [hD1] at h
    have := validateDate_error_kind hD1
    simp [this] at h
  | ok sd =>
  rw [hD1] at h; dsimp only at h
  cases hD2 : validateDate raw.endDate with
  | error e =>
    rw [hD2] at h
    have := validateDate_error_kind hD2
    simp [this] at h
  | ok ed =>
  rw [hD2] at h; dsimp only at h
  cases hR : checkDateRange sd ed with
  | error e =>
    rw [hR] at h
    have := checkDateRange_error_kind hR
    simp [this] at h
  | ok u =>
  rw [hR] at h; dsimp only at h
  cases hO : validateSortOrder raw.sortOrder with
  | error e =>
    rw [hO] at h
    have := validateSortOrder_error_kind hO
    simp [this] at h
  | ok so =>
  rw [hO] at h; dsimp only at h
  simp at h

/-- C1: for every raw query input whose limit parses as a non-negative
integer, validation never rejects it with InvalidLimit; when validation
succeeds the effective limit is exactly 100 above 100, exactly 1 below 1,
and the parsed value otherwise; an absent limit defaults to 50; and an
InvalidLimit outcome arises only from a present non-numeric limit. -/
theorem limit_clamped_not_rejected (raw : RawQuery) :
    (∀ s n, raw.limit = some s → parseNonNegInt s = some n →
      validateQuery raw ≠ .error .InvalidLimit ∧
      ∀ q, validateQuery raw = .ok q →
        q.limit = if 100 < n then 100 else if n < 1 then 1 else n) ∧
    (raw.limit = none → ∀ q, validateQuery raw = .ok q → q.limit = 50) ∧
    (validateQuery raw = .error .InvalidLimit →
      ∃ s, raw.limit = some s ∧ parseNonNegInt s = none) := by
  refine ⟨fun s n hs hn => ⟨fun hbad => ?_, fun q hq => ?_⟩, fun hnone q hq => ?_, invalidLimit_source⟩
  · obtain ⟨s', hs', hnone'⟩ := invalidLimit_source hbad
    rw [hs] at hs'
    cases hs'
    rw [hn] at hnone'
    exact Option.some_ne_none n hnone'
  · have hL := (validateQuery_ok_parts hq).2.1
    rw [hs] at hL
    simp only [validateLimit, hn, Except.ok.injEq] at hL
    rw [← hL]
    rfl
  · have hL := (validateQuery_ok_parts hq).2.1
    rw [hnone] at hL
    simpa [validateLimit] using hL.symm

/-- Witness for C1 at the concrete input limit="250": validation does not
reject, and the effective limit is the clamped value 100. -/
theorem limit_clamped_not_rejected_witness :
    validateQuery ⟨none, some "250", none, none, none, none⟩ ≠
      Except.error .InvalidLimit ∧
    QuerySpec.limit ⟨none, 100, 0, none, none, .desc⟩ =
      if 100 < 250 then 100 else if 250 < 1 then 1 else 250 := by
  have h := (limit_clamped_not_rejected ⟨none, some "250", none, none, none, none⟩).1
    "250" 250 rfl (by decide)
  exact ⟨h.1, h.2 ⟨none, 100, 0, none, none, .desc⟩ (by rfl)⟩

/-- Growing the window can only grow an inclusive-threshold count. -/
theorem countInWindow_mono (rs : List Record) (now : Int) {w1 w2 : Int}
    (h : w1 ≤ w2) : countInWindow rs now w1 ≤ countInWindow rs now w2 := by
  induction rs with
  | nil => simp [countInWindow]
  | cons r rs ih =>
    simp only [countInWindow, List.filter_cons] at ih ⊢
    by_cases h1 : now - w1 ≤ r.createdAt
    · have h2 : now - w2 ≤ r.createdAt := by omega
      rw [if_pos (decide_eq_true h1), if_pos (decide_eq_true h2)]
      exact Nat.succ_le_succ ih
    · by_cases h2 : now - w2 ≤ r.createdAt
      · rw [if_neg (by simpa using h1), if_pos (decide_eq_true h2)]
        exact le_trans ih (Nat.le_succ _)
      · rw [if_neg (by simpa using h1), if_neg (by simpa using h2)]
        exact ih

/-- C2: for a fixed captured now and fixed record set, each window value
is the independent count of records with createdAt ≥ now - window, the
aggregator maps that count over its window set using the one shared now,
and the window counts are monotone: last1h ≤ last24h ≤ last7d ≤ last30d. -/
theorem stats_windows_monotone (records : List Record) (now : Int) :
    (∀ w, countInWindow records now w =
      records.countP fun r => decide (now - w ≤ r.createdAt)) ∧
    aggregateWindows records now adminWindows =
      [countInWindow records now msPerHour, countInWindow records now msPerDay,
       countInWindow records now msPer7d, countInWindow records now msPer30d] ∧
    aggregateWindows records now dashboardWindows =
      [countInWindow records now msPerDay, countInWindow records now msPer7d,
       countInWindow records now msPer30d] ∧
    countInWindow records now msPerHour ≤ countInWindow records now msPerDay ∧
    countInWindow records now msPerDay ≤ countInWindow records now msPer7d ∧
    countInWindow records now msPer7d ≤ countInWindow records now msPer30d := by
  refine ⟨fun w => ?_, rfl, rfl, ?_, ?_, ?_⟩
  · rw [countInWindow, List.countP_eq_length_filter]
  · exact countInWindow_mono records now (by decide)
  · exact countInWindow_mono records now (by decide)
  · exact countInWindow_mono records now (by decide)

/-- A concrete store of 25 records all matching the empty filter, used to
exercise the pagination example of the spec. -/
def exampleStore : List Record :=
  (List.range 25).map fun i => ⟨"sometx", i, (i : Int)⟩

/-- C3: the count of a query response is the total number of records
matching the filter before pagination, whatever limit and skip are; at
the concrete example a filter matching 25 records queried with limit=10,
skip=0 returns 10 records but count=25. -/
theorem count_reflects_total :
    (∀ (store : List Record) (q : QuerySpec) (l s : Nat),
      (runQuery store { q with limit := l, skip := s }).count =
        (store.filter (matchesFilter (buildFilter q))).length) ∧
    (runQuery exampleStore ⟨none, 10, 0, none, none, .desc⟩).records.length = 10 ∧
    (runQuery exampleStore ⟨none, 10, 0, none, none, .desc⟩).count = 25 := by
  refine ⟨fun store q l s => rfl, ?_, rfl⟩
  decide

/-- Well-formedness of a raw txid field: absent, empty, or 64-hex. -/
def txidWellFormed : Option String → Bool
  | none => true
  | some s => s.isEmpty || isHex64 s

/-- Well-formedness of a raw limit or skip field: absent or numeric. -/
def intWellFormed : Option String → Bool
  | none => true
  | some s => (parseNonNegInt s).isSome

/-- Well-formedness of a raw date field: absent or parseable. -/
def dateWellFormed : Option DateInput → Bool
  | some .malformed => false
  | _ => true

/-- Well-formedness of the raw date pair as a range: when both bounds
parse, the start is not after the end. -/
def rangeWellFormed : Option DateInput → Option DateInput → Bool
  | some (.valid a), some (.valid b) => decide (a ≤ b)
  | _, _ => true

theorem txidWellFormed_ok {x : Option String} (h : txidWellFormed x = true) :
    ∃ t, validateTxid x = .ok t := by
  cases x with
  | none => exact ⟨none, rfl⟩
  | some s =>
    simp [txidWellFormed] at h
    by_cases h1 : s.isEmpty
    · exact ⟨none, by simp [validateTxid, h1]⟩
    · simp [h1] at h
      exact ⟨some s, by simp [validateTxid, h1, h]⟩

theorem limitWellFormed_ok {x : Option String} (h : intWellFormed x = true) :
    ∃ n, validateLimit x = .ok n := by
  cases x with
  | none => exact ⟨50, rfl⟩
  | some s =>
    simp [intWellFormed, Option.isSome_iff_exists] at h
    obtain ⟨n, hn⟩ := h
    exact ⟨clampLimit n, by simp [validateLimit, hn]⟩

theorem skipWellFormed_ok {x : Option String} (h : intWellFormed x = true) :
    ∃ n, validateSkip x = .ok n := by
  cases x with
  | none => exact ⟨0, rfl⟩
  | some s =>
    simp [intWellFormed, Option.isSome_iff_exists] at h
    obtain ⟨n, hn⟩ := h
    exact ⟨n, by simp [validateSkip, hn]⟩

theorem dateWellFormed_ok {x : Option DateInput} (h : dateWellFormed x = true) :
    ∃ d, validateDate x = .ok d := by
  match x with
  | none => exact ⟨none, rfl⟩
  | some (.valid t) => exact ⟨some t, rfl⟩
  | some .malformed => simp [dateWellFormed] at h

/-- C4: whenever both dates parse as valid timestamps with start after
end, validation fails with InvalidDateRange, whatever the other optional
fields hold (the earlier-checked fields being individually well-formed,
and the sortOrder field completely arbitrary). -/
theorem invalid_date_range_rejected (raw : RawQuery) (a b : Int)
    (hsd : raw.startDate = some (.valid a)) (hed : raw.endDate = some (.valid b))
    (hab : a > b)
    (htx : txidWellFormed raw.txid = true)
    (hlim : intWellFormed raw.limit = true)
    (hskip : intWellFormed raw.skip = true) :
    validateQuery raw = .error .InvalidDateRange := by
  obtain ⟨t, hT⟩ := txidWellFormed_ok htx
  obtain ⟨l, hL⟩ := limitWellFormed_ok hlim
  obtain ⟨k, hS⟩ := skipWellFormed_ok hskip
  unfold validateQuery
  rw [hT]; dsimp only
  rw [hL]; dsimp only
  rw [hS]; dsimp only
  rw [hsd, hed]
  simp [validateDate, checkDateRange, hab]

/-- Witness for C4 at a concrete input: startDate 10 after endDate 5,
with a present (and otherwise irrelevant) sortOrder field. -/
theorem invalid_date_range_rejected_witness :
    validateQuery ⟨none, none, none, some (.valid 10), some (.valid 5),
      some "neither"⟩ = .error .InvalidDateRange := by
  exact invalid_date_range_rejected _ 10 5 rfl rfl (by decide) (by decide)
    (by decide) (by decide)

/-- C5: the filter builder is a total function of the QuerySpec; with
only txid set the filter is the exact-match predicate and no date
predicate applies, with only dates set no txid predicate applies, with
both set the filter is the conjunction of the two predicates, and with
no predicates set the filter matches every record. -/
theorem filter_builder_conjunctive :
    (∀ q : QuerySpec, buildFilter q = ⟨q.txid, q.startDate, q.endDate⟩) ∧
    (∀ (t : String) (l s : Nat) (so : SortOrder) (r : Record),
      matchesFilter (buildFilter ⟨some t, l, s, none, none, so⟩) r =
        (r.txid == t)) ∧
    (∀ (a b : Int) (l s : Nat) (so : SortOrder) (r : Record),
      matchesFilter (buildFilter ⟨none, l, s, some a, some b, so⟩) r =
        (decide (a ≤ r.createdAt) && decide (r.createdAt ≤ b))) ∧
    (∀ (t : String) (a b : Int) (l s : Nat) (so : SortOrder) (r : Record),
      matchesFilter (buildFilter ⟨some t, l, s, some a, some b, so⟩) r =
        ((r.txid == t) && (decide (a ≤ r.createdAt) && decide (r.createdAt ≤ b)))) ∧
    (∀ (l s : Nat) (so : SortOrder) (r : Record),
      matchesFilter (buildFilter ⟨none, l, s, none, none, so⟩) r = true) := by
  refine ⟨fun q => rfl, fun t l s so r => ?_, fun a b l s so r => ?_,
    fun t a b l s so r => ?_, fun l s so r => rfl⟩
  · simp [buildFilter, matchesFilter]
  · simp [buildFilter, matchesFilter]
  · simp [buildFilter, matchesFilter, Bool.and_assoc]

/-- C8: a present sortOrder that is neither exactly "asc" nor exactly
"desc" makes validation fail with InvalidSortOrder (the earlier-checked
fields being well-formed), and an absent sortOrder defaults to
descending in the validated QuerySpec. -/
theorem sort_order_validation :
    (∀ (raw : RawQuery) (s : String), raw.sortOrder = some s →
      s ≠ "asc" → s ≠ "desc" →
      txidWellFormed raw.txid = true → intWellFormed raw.limit = true →
      intWellFormed raw.skip = true → dateWellFormed raw.startDate = true →
      dateWellFormed raw.endDate = true →
      rangeWellFormed raw.startDate raw.endDate = true →
      validateQuery raw = .error .InvalidSortOrder) ∧
    (∀ (raw : RawQuery) (q : QuerySpec), raw.sortOrder = none →
      validateQuery raw = .ok q → q.sortOrder = .desc) := by
  constructor
  · intro raw s hso h1 h2 htx hlim hskip hd1 hd2 hr
    obtain ⟨t, hT⟩ := txidWellFormed_ok htx
    obtain ⟨l, hL⟩ := limitWellFormed_ok hlim
    obtain ⟨k, hS⟩ := skipWellFormed_ok hskip
    obtain ⟨d1, hD1⟩ := dateWellFormed_ok hd1
    obtain ⟨d2, hD2⟩ := dateWellFormed_ok hd2
    have hR : checkDateRange d1 d2 = .ok () := by
      match hx : raw.startDate, hy : raw.endDate with
      | none, _ =>
        rw [hx] at hD1
        simp [validateDate] at hD1
        simp [← hD1, checkDateRange]
      | some (.valid a), none =>
        rw [hx] at hD1; rw [hy] at hD2
        simp [validateDate] at hD1 hD2
        simp [← hD1, ← hD2, checkDateRange]
      | some (.valid a), some (.valid b) =>
        rw [hx] at hD1; rw [hy] at hD2
        rw [hx, hy] at hr
        simp [validateDate] at hD1 hD2
        simp [rangeWellFormed] at hr
        simp [← hD1, ← hD2, checkDateRange]
        omega
      | some .malformed, _ =>
        rw [hx] at hd1
        simp [dateWellFormed] at hd1
      | some (.valid a), some .malformed =>
        rw [hy] at hd2
        simp [dateWellFormed] at hd2
    unfold validateQuery
    rw [hT]; dsimp only
    rw [hL]; dsimp only
    rw [hS]; dsimp only
    rw [hD1]; dsimp only
    rw [hD2]; dsimp only
    rw [hR]; dsimp only
    rw [hso]
    simp [validateSortOrder, h1, h2]
  · intro raw q hnone hq
    have hO := (validateQuery_ok_parts hq).2.2.2.2.2.2
    rw [hnone] at hO
    simpa [validateSortOrder] using hO.symm

/-- Witness for C8 at concrete inputs: sortOrder "ASC" is rejected with
InvalidSortOrder, and an absent sortOrder yields the descending default. -/
theorem sort_order_validation_witness :
    validateQuery ⟨none, none, none, none, none, some "ASC"⟩ =
      .error .InvalidSortOrder ∧
    QuerySpec.sortOrder ⟨none, 50, 0, none, none, .desc⟩ = .desc := by
  constructor
  · exact sort_order_validation.1 ⟨none, none, none, none, none, some "ASC"⟩
      "ASC" rfl (by decide) (by decide) (by decide) (by decide) (by decide)
      (by decide) (by decide) (by decide)
  · exact sort_order_validation.2 ⟨none, none, none, none, none, none⟩
      ⟨none, 50, 0, none, none, .desc⟩ rfl (by rfl)

/-- A well-formed bearer header surrenders exactly its token. -/
theorem extractBearerToken_append (t : String) :
    extractBearerToken ("Bearer " ++ t) = some t := by
  have h1 : ("Bearer " ++ t).toList = bearerTag ++ t.toList := rfl
  have hlen : bearerTag.length = 7 := rfl
  have h2 : (bearerTag ++ t.toList).take 7 = bearerTag := by
    rw [← hlen]
    exact List.take_left bearerTag t.toList
  have h3 : (bearerTag ++ t.toList).drop 7 = t.toList := by
    rw [← hlen]
    exact List.drop_left bearerTag t.toList
  rw [extractBearerToken, h1, if_pos h2, h3]
  cases t
  rfl

/-- C6: a missing Authorization header, a header whose first seven
characters are not the Bearer scheme, and a well-formed header whose
token differs from the configured secret all produce the identical
Unauthorized outcome, with no observable difference between the three. -/
theorem auth_gate_uniform_outcome (secret hdr tok : String)
    (hmal : hdr.toList.take 7 ≠ bearerTag) (hne : tok ≠ secret) :
    checkAuth secret none = .unauthorized ∧
    checkAuth secret (some hdr) = .unauthorized ∧
    checkAuth secret (some ("Bearer " ++ tok)) = .unauthorized ∧
    checkAuth secret (some hdr) = checkAuth secret none ∧
    checkAuth secret (some ("Bearer " ++ tok)) = checkAuth secret none := by
  have h1 : checkAuth secret none = .unauthorized := rfl
  have h2 : extractBearerToken hdr = none := by
    rw [extractBearerToken, if_neg hmal]
  have h3 : checkAuth secret (some hdr) = .unauthorized := by
    simp [checkAuth, h2]
  have h4 : checkAuth secret (some ("Bearer " ++ tok)) = .unauthorized := by
    simp [checkAuth, extractBearerToken_append, hne]
  exact ⟨h1, h3, h4, h3.trans h1.symm, h4.trans h1.symm⟩

/-- Witness for C6 at concrete values: secret "s3cret", malformed header
"Token s3cret", and the one-character-off token "s3creT". -/
theorem auth_gate_uniform_outcome_witness :
    checkAuth "s3cret" none = .unauthorized ∧
    checkAuth "s3cret" (some "Token s3cret") = .unauthorized ∧
    checkAuth "s3cret" (some ("Bearer " ++ "s3creT")) = .unauthorized ∧
    checkAuth "s3cret" (some "Token s3cret") = checkAuth "s3cret" none ∧
    checkAuth "s3cret" (some ("Bearer " ++ "s3creT")) =
      checkAuth "s3cret" none :=
  auth_gate_uniform_outcome "s3cret" "Token s3cret" "s3creT"
    (by decide) (by decide)

/-- C7: absence of the store connection string or of the admin secret
makes startup exit before serving, and a serving outcome is only reached
with both configured — the admin router carries the configured secret,
never a per-request fallback. -/
theorem startup_fail_fast (cfg : Config) :
    (cfg.mongoUrl = none ∨ cfg.adminToken = none → startServer cfg = .exited) ∧
    (∀ (db : Db) (ar : AdminRouter), startServer cfg = .serving db ar →
      cfg.adminToken = some ar.secret ∧ ∃ u, cfg.mongoUrl = some u) := by
  constructor
  · rintro (h | h)
    · simp [startServer, connectToDatabase, h]
    · cases hm : cfg.mongoUrl <;>
        simp [startServer, connectToDatabase, createAdminRouter, h, hm]
  · intro db ar h
    cases hm : cfg.mongoUrl with
    | none => simp [startServer, connectToDatabase, hm] at h
    | some u =>
      have hc : connectToDatabase cfg = .ok ⟨cfg.mongoDbName.getD "fractionalizeDB"⟩ := by
        simp [connectToDatabase, hm]
      unfold startServer at h
      rw [hc] at h; dsimp only at h
      cases ht : cfg.adminToken with
      | none => simp [createAdminRouter, ht] at h
      | some s =>
        have hcr : createAdminRouter cfg = .ok ⟨s⟩ := by
          simp [createAdminRouter, ht]
        rw [hcr] at h; dsimp only at h
        cases ar with
        | mk sec =>
          simp at h
          exact ⟨by simp [h.2], u, rfl⟩

/-- Witness for C7: the empty configuration exits at startup, and a fully
configured startup serves with the configured secret in the admin router. -/
theorem startup_fail_fast_witness :
    startServer ⟨none, none, none⟩ = .exited ∧
    Config.adminToken ⟨some "mongodb://x", some "db", some "tok"⟩ =
      some (AdminRouter.secret ⟨"tok"⟩) ∧
    ∃ u, Config.mongoUrl ⟨some "mongodb://x", some "db", some "tok"⟩ = some u :=
  ⟨(startup_fail_fast ⟨none, none, none⟩).1 (Or.inl rfl),
   (startup_fail_fast ⟨some "mongodb://x", some "db", some "tok"⟩).2
     ⟨"db"⟩ ⟨"tok"⟩ rfl⟩

/-- The uniform shape of any error built by `errorResponse`. -/
theorem errorResponse_shape {st st' : Nat} {m c : String} {b : ErrorBody}
    (h : errorResponse st' m c = .err st b) :
    b.status = "error" ∧ b.message = m ∧ b.code = c := by
  cases b with
  | mk s mm cc =>
    simp [errorResponse] at h
    obtain ⟨h1, h2, h3, h4⟩ := h
    simp_all

/-- C9: every request naming an unrecognized operation gets the 404
NOT_FOUND error body; every error response of the service has the
uniform shape with status "error" and a message/code pair drawn from the
fixed constant table (no stack traces or internal details); and the
error-handler middleware emits the fixed 500 body. -/
theorem uniform_error_surface :
    (∀ (env : ServerEnv) (p : String), handleRequest env (.unknown p) =
      .err 404 ⟨"error", "Endpoint not found", "NOT_FOUND"⟩) ∧
    (∀ (env : ServerEnv) (req : Route) (st : Nat) (b : ErrorBody),
      handleRequest env req = .err st b →
      b.status = "error" ∧ (b.message, b.code) ∈ allowedErrors) ∧
    errorMiddleware =
      .err 500 ⟨"error", "Internal server error", "INTERNAL_SERVER_ERROR"⟩ := by
  refine ⟨fun env p => rfl, ?_, rfl⟩
  intro env req st b h
  cases req with
  | root => exact absurd h (by simp [handleRequest])
  | mainpage =>
    unfold handleRequest handleMainpage at h
    dsimp only at h
    by_cases hs : env.storeUp
    · rw [if_pos hs] at h
      exact absurd h (by simp)
    · rw [if_neg hs] at h
      obtain ⟨h1, h2, h3⟩ := errorResponse_shape h
      exact ⟨h1, by rw [h2, h3]; decide⟩
  | user raw =>
    unfold handleRequest handleUser at h
    dsimp only at h
    cases hv : validateQuery raw with
    | error k =>
      rw [hv] at h; dsimp only at h
      obtain ⟨h1, h2, h3⟩ := errorResponse_shape h
      refine ⟨h1, ?_⟩
      rw [h2, h3]
      cases k <;> decide
    | ok q =>
      rw [hv] at h; dsimp only at h
      by_cases hs : env.storeUp
      · rw [if_pos hs] at h
        exact absurd h (by simp)
      · rw [if_neg hs] at h
        obtain ⟨h1, h2, h3⟩ := errorResponse_shape h
        exact ⟨h1, by rw [h2, h3]; decide⟩
  | adminStats ah =>
    unfold handleRequest handleAdmin at h
    dsimp only at h
    cases ha : checkAuth env.secret ah with
    | unauthorized =>
      rw [ha] at h; dsimp only at h
      obtain ⟨h1, h2, h3⟩ := errorResponse_shape h
      exact ⟨h1, by rw [h2, h3]; decide⟩
    | authorized =>
      rw [ha] at h; dsimp only at h
      by_cases hs : env.storeUp
      · rw [if_pos hs] at h
        exact absurd h (by simp)
      · rw [if_neg hs] at h
        obtain ⟨h1, h2, h3⟩ := errorResponse_shape h
        exact ⟨h1, by rw [h2, h3]; decide⟩
  | adminHealth ah =>
    unfold handleRequest handleAdmin at h
    dsimp only at h
    cases ha : checkAuth env.secret ah with
    | unauthorized =>
      rw [ha] at h; dsimp only at h
      obtain ⟨h1, h2, h3⟩ := errorResponse_shape h
      exact ⟨h1, by rw [h2, h3]; decide⟩
    | authorized =>
      rw [ha] at h; dsimp only at h
      by_cases hs : env.storeUp
      · rw [if_pos hs] at h
        exact absurd h (by simp)
      · rw [if_neg hs] at h
        obtain ⟨h1, h2, h3⟩ := errorResponse_shape h
        exact ⟨h1, by rw [h2, h3]; decide⟩
  | unknown p =>
    unfold handleRequest at h
    dsimp only at h
    obtain ⟨h1, h2, h3⟩ := errorResponse_shape h
    exact ⟨h1, by rw [h2, h3]; decide⟩

/-- Witness for C9: an unrecognized path's 404 body has the uniform
shape and its message/code pair sits in the fixed constant table. -/
theorem uniform_error_surface_witness :
    ErrorBody.status ⟨"error", "Endpoint not found", "NOT_FOUND"⟩ = "error" ∧
    ("Endpoint not found", "NOT_FOUND") ∈ allowedErrors :=
  uniform_error_surface.2.1 ⟨"s", [], true⟩ (.unknown "/nope") 404
    ⟨"error", "Endpoint not found", "NOT_FOUND"⟩ rfl

/-- C10: in the fee calculator, a non-numeric or zero pegging rate makes
the displayed issuer total equal the parsed share count, a non-zero rate
makes it shares times rate, and a zero rate with non-zero shares yields
the share count, never 0. -/
theorem fee_calculator_total_sats (ns : Option ℚ) (r : ℚ) (hr : r ≠ 0) :
    totalSats ns none = ns.getD 0 ∧
    totalSats ns (some 0) = ns.getD 0 ∧
    totalSats ns (some r) = ns.getD 0 * r ∧
    ∀ sh : ℚ, sh ≠ 0 →
      totalSats (some sh) (some 0) = sh ∧ totalSats (some sh) (some 0) ≠ 0 := by
  refine ⟨by simp [totalSats], by simp [totalSats], by simp [totalSats, hr],
    fun sh hsh => ⟨by simp [totalSats], by simp [totalSats, hsh]⟩⟩

/-- Witness for C10 at shares 1000: rate absent gives 1000, rate 0 gives
1000 (and not 0), rate 2 gives 2000. -/
theorem fee_calculator_total_sats_witness :
    totalSats (some 1000) none = 1000 ∧
    totalSats (some 1000) (some 0) = 1000 ∧
    totalSats (some 1000) (some 2) = 2000 ∧
    totalSats (some 1000) (some 0) ≠ 0 := by
  have h := fee_calculator_total_sats (some 1000) 2 (by norm_num)
  have h4 := h.2.2.2 1000 (by norm_num)
  refine ⟨by simpa using h.1, h4.1, ?_, h4.2⟩
  rw [h.2.2.1]
  norm_num

end UTS
